import Mathlib

/-!
# CodeSync synchronization client (`frontend/src/App.jsx`)

A shallow embedding of the `App` component: its React state and refs become the
fields of `AppState`, every handler becomes a function on `AppState`, and the
browser (WebSocket events, timers, textarea) becomes a timed event dispatcher.

Conventions of the embedding.

* A JavaScript string is embedded as a `String`; positions and lengths count the
  elements of `String.data` (the source counts UTF-16 code units, which is the
  same thing for text of the Basic Multilingual Plane).
* Every WebSocket ever constructed is kept in `AppState.sockets`; socket `k` is the
  `k`-th one constructed, and `wsRef` holds the index of the socket it refers to.
* Time is a natural number of milliseconds. A timer fires exactly on its deadline.
* React commits a render after each event; handlers therefore read the state left
  by the previous event, while a timer callback reads what its closure captured.
-/

namespace CodeSync

/-! ## Data model -/

/-- The four values of `WebSocket.readyState`. -/
inductive ReadyState
  | CONNECTING
  | OPEN
  | CLOSING
  | CLOSED
  deriving DecidableEq, Repr

/-- The object given to `JSON.stringify` and `socket.send` (line 45). -/
structure OutboundMessage where
  type : String
  code : String
  deriving DecidableEq, Repr

/-- A WebSocket built at line 63: its address, the `id` its handlers close over,
its ready state and the frames sent on it so far. -/
structure Socket where
  url : String
  id : String
  readyState : ReadyState
  sent : List OutboundMessage
  deriving DecidableEq, Repr

/-- What `JSON.parse(event.data)` makes of an incoming frame, as far as the handler
at lines 75-86 looks at it: the parse throws; or it gives `null`, on which reading
`data.type` throws; or it gives a value whose `type` property is not a string
(absent, or any non-string value; this also covers numbers, strings, booleans and
arrays); or it gives an object whose `type` is the string `type` and whose `code`
property is the text `code`. -/
inductive MessageData
  | unparsable
  | null
  | untyped
  | typed (type : String) (code : String)
  deriving DecidableEq, Repr

/-- The exceptions the message handler can meet. -/
inductive JSError
  | SyntaxError
  | TypeError
  deriving DecidableEq, Repr

/-- The textarea behind `textareaRef`: its selection and whether it has focus. -/
structure Textarea where
  selectionStart : Nat
  selectionEnd : Nat
  focused : Bool
  deriving DecidableEq, Repr

/-- The timer armed by `useDebounce` (lines 14-16): its deadline, the arguments of
the call and the `isConnected` that the captured `fetchAutocomplete` closes over. -/
structure DebouncedCall where
  deadline : Nat
  currentCode : String
  cursorPosition : Nat
  isConnected : Bool
  deriving DecidableEq, Repr

/-- The zero-delay timer of lines 192-196 with the position it will set. -/
structure CursorTask where
  deadline : Nat
  position : Nat
  deriving DecidableEq, Repr

/-- A POST to `/autocomplete` (lines 152-160) with the time it was issued. -/
structure SuggestionRequest where
  time : Nat
  code : String
  cursorPosition : Nat
  language : String
  deriving DecidableEq, Repr

/-- React state and refs of `App`, the sockets it has constructed, its pending
timers, the requests it has issued and the clock. -/
structure AppState where
  code : String
  roomId : String
  wsRef : Option Nat
  connectingRef : Bool
  isConnected : Bool
  message : String
  isLoading : Bool
  autocompleteSuggestion : String
  textareaRef : Option Textarea
  isNetworkUpdateRef : Bool
  sockets : List Socket
  networkTimer : Option Nat
  timeoutRef : Option DebouncedCall
  cursorTasks : List CursorTask
  requests : List SuggestionRequest
  now : Nat
  deriving DecidableEq, Repr

/-- The state after the first render (lines 23-38), textarea mounted. -/
def initialState : AppState where
  code := ""
  roomId := ""
  wsRef := none
  connectingRef := false
  isConnected := false
  message := "Click 'Create New Room' or enter a Room ID to start."
  isLoading := false
  autocompleteSuggestion := ""
  textareaRef := some ⟨0, 0, false⟩
  isNetworkUpdateRef := false
  sockets := []
  networkTimer := none
  timeoutRef := none
  cursorTasks := []
  requests := []
  now := 0

/-- Line 5. -/
def WS_URL : String := "ws://127.0.0.1:8000/ws"

/-- The three connection states of the specification, read off the two flags the
source keeps: `isConnected` and `connectingRef`. -/
inductive ConnectionState
  | Disconnected
  | Connecting
  | Connected
  deriving DecidableEq, Repr

/-- The connection state shown by the flags of a state. -/
def connectionState (s : AppState) : ConnectionState :=
  if s.isConnected then .Connected
  else if s.connectingRef then .Connecting
  else .Disconnected

/-! ## WebSocket and connection logic -/

/-- The `socket.send` of line 45 on socket `k`. -/
def send (sockets : List Socket) (k : Nat) (m : OutboundMessage) : List Socket :=
  match sockets[k]? with
  | some sock => sockets.set k { sock with sent := sock.sent ++ [m] }
  | none => sockets

/-- Lines 42-47. -/
def broadcastChange (s : AppState) (newCode : String) : AppState :=
  match s.wsRef with
  | none => s
  | some k =>
    match s.sockets[k]? with
    | none => s
    | some socket =>
      if s.isConnected && socket.readyState == .OPEN && !s.isNetworkUpdateRef then
        { s with sockets := send s.sockets k ⟨"code_change", newCode⟩ }
      else s

/-- The test of line 54:
`wsRef.current && (wsRef.current.readyState === WebSocket.OPEN || connectingRef.current)`. -/
def connectedOrConnecting (s : AppState) : Bool :=
  match s.wsRef with
  | none => false
  | some k =>
    match s.sockets[k]? with
    | none => false
    | some socket => socket.readyState == .OPEN || s.connectingRef

/-- The constructor `new WebSocket(url)` of line 63 with the `id` its handlers will
close over. It throws a `SyntaxError` when the address has a fragment, that is when
it holds a `#`; the fixed part of the address parses, so nothing else in it makes
the constructor throw. Otherwise it gives a socket that is connecting. -/
def newWebSocket (url id : String) : Except JSError Socket :=
  if '#' ∈ url.data then .error .SyntaxError else .ok ⟨url, id, .CONNECTING, []⟩

/-- What a call leaves behind: the state, and the exception it threw, if any. -/
structure Outcome where
  state : AppState
  thrown : Option JSError
  deriving DecidableEq, Repr

/-- Lines 50-64 of `connectToRoom`; the handlers it registers are `onopen`,
`onmessage`, `onclose` and `onerror` below. An absent `id` is the empty string.
When the constructor throws, the exception leaves the function after lines 59-61
have run and before line 64 assigns `wsRef`. -/
def connectToRoom (s : AppState) (id : String) : Outcome :=
  if id = "" then ⟨s, none⟩
  else if connectedOrConnecting s then ⟨s, none⟩
  else
    let s1 := { s with message := "Connecting to room...", isLoading := true, connectingRef := true }
    match newWebSocket (WS_URL ++ "/" ++ id) id with
    | .error e => ⟨s1, some e⟩
    | .ok socket =>
      ⟨{ s1 with sockets := s1.sockets ++ [socket], wsRef := some s1.sockets.length }, none⟩

/-- Lines 66-73. -/
def onopen (s : AppState) (id : String) : AppState :=
  { s with
    connectingRef := false
    isConnected := true
    roomId := id
    message := "Connected to Room ID: " ++ id ++ ". Start typing!"
    isLoading := false }

/-- The `try` block of lines 77-82. -/
def onmessageTry (s : AppState) (id : String) (data : MessageData) : Except JSError AppState :=
  match data with
  | .unparsable => .error .SyntaxError
  | .null => .error .TypeError
  | .untyped => .ok s
  | .typed type code =>
    if type = "initial_state" || type = "code_update" then
      .ok { s with
        isNetworkUpdateRef := true
        code := code
        message :=
          if type = "initial_state" then
            "Connected to Room ID: " ++ id ++ ". Initial code loaded from DB."
          else "Connected to Room ID: " ++ id ++ ". Live changes received." }
    else .ok s

/-- Lines 75-86: the `catch` only logs. -/
def onmessage (s : AppState) (id : String) (data : MessageData) : Except JSError AppState :=
  match onmessageTry s id data with
  | .ok s' => .ok s'
  | .error _ => .ok s

/-- Lines 88-102; `socket` is the index of the socket the handler belongs to. -/
def onclose (s : AppState) (socket : Nat) (code : Nat) : AppState :=
  let s1 := { s with connectingRef := false, isConnected := false, isLoading := false }
  let s2 :=
    if code = 1008 then
      { s1 with message := "Connection closed: Room does not exist. Please check the Room ID." }
    else if code ≠ 1000 then
      { s1 with message := "Connection closed with error. Code: " ++ toString code ++ "." }
    else { s1 with message := "Disconnected successfully." }
  if s2.wsRef = some socket then { s2 with wsRef := none } else s2

/-- Lines 104-110. -/
def onerror (s : AppState) : AppState :=
  { s with
    connectingRef := false
    message := "WebSocket Error. Check backend console and connectivity."
    isConnected := false
    isLoading := false }

/-- The method `WebSocket.close()`: a connecting or open socket starts closing. -/
def Socket.close (socket : Socket) : Socket :=
  match socket.readyState with
  | .CONNECTING => { socket with readyState := .CLOSING }
  | .OPEN => { socket with readyState := .CLOSING }
  | _ => socket

/-- Lines 115-120, the cleanup that runs when the component is disposed. -/
def teardown (s : AppState) : AppState :=
  match s.wsRef with
  | none => s
  | some k =>
    { s with
      sockets := (match s.sockets[k]? with
        | some socket => s.sockets.set k socket.close
        | none => s.sockets)
      wsRef := none }

/-- Lines 123-131: the effect keyed on `[code]`. It runs when a render commits a
`code` that differs from the previous one: first the cleanup of its last run
(`clearTimeout`), then the body, which arms the 10 ms reset if the flag is set. -/
def networkFlagEffect (s : AppState) : AppState :=
  { s with networkTimer := if s.isNetworkUpdateRef then some (s.now + 10) else none }

/-- The render committed after an event that started in state `prev`. -/
def commit (prev s : AppState) : AppState :=
  if s.code ≠ prev.code then networkFlagEffect s else s

/-! ## Autocomplete logic -/

/-- Lines 145-160, up to the `await`: `isConnected` is the value the closure captured
and `time` the moment of the call. -/
def fetchAutocomplete (s : AppState) (isConnected : Bool) (time : Nat)
    (currentCode : String) (cursorPosition : Nat) : AppState :=
  if !isConnected || currentCode.length < 5 then
    { s with autocompleteSuggestion := "" }
  else
    { s with requests := s.requests ++ [⟨time, currentCode, cursorPosition, "python"⟩] }

/-- Lines 162-171, the continuation after the `await`: `some text` is a successful
reply carrying `text`, `none` a non-success reply or a failed request. -/
def fetchAutocompleteReply (s : AppState) (reply : Option String) : AppState :=
  match reply with
  | some suggestion => { s with autocompleteSuggestion := suggestion }
  | none => { s with autocompleteSuggestion := "" }

/-- Lines 8-18 applied to `fetchAutocomplete` with delay 600 (line 174). -/
def debouncedAutocomplete (s : AppState) (currentCode : String) (cursorPosition : Nat) :
    AppState :=
  let s1 := if s.timeoutRef.isSome then { s with timeoutRef := none } else s
  { s1 with timeoutRef := some ⟨s1.now + 600, currentCode, cursorPosition, s1.isConnected⟩ }

/-- The method `String.prototype.substring(a, b)`: both indices are clamped to the
length and swapped when out of order. -/
def substring (s : String) (a b : Nat) : String :=
  let a1 := min a s.length
  let b1 := min b s.length
  ⟨(s.data.take (max a1 b1)).drop (min a1 b1)⟩

/-- The method `String.prototype.substring(a)` with one argument. -/
def substringFrom (s : String) (a : Nat) : String :=
  substring s a s.length

/-- Lines 177-197; `stop` is the local the source calls `end`. -/
def handleAutocompleteInsert (s : AppState) (suggestion : String) : AppState :=
  match s.textareaRef with
  | none => s
  | some textarea =>
    let start := textarea.selectionStart
    let stop := textarea.selectionEnd
    let newCode := substring s.code 0 start ++ suggestion ++ substringFrom s.code stop
    let s1 := { s with code := newCode }
    let s2 := broadcastChange s1 newCode
    let s3 := { s2 with autocompleteSuggestion := "" }
    { s3 with cursorTasks := s3.cursorTasks ++ [⟨s3.now + 0, start + suggestion.length⟩] }

/-! ## Event handlers -/

/-- Lines 202-208; `newCode` is `event.target.value` and `selectionStart` is
`event.target.selectionStart`. -/
def handleCodeChange (s : AppState) (newCode : String) (selectionStart : Nat) : AppState :=
  let s1 := { s with autocompleteSuggestion := "" }
  let s2 := { s1 with code := newCode }
  let s3 := broadcastChange s2 newCode
  debouncedAutocomplete s3 newCode selectionStart

/-- Lines 211-216. -/
def handleKeyDown (s : AppState) (key : String) : AppState :=
  if key = "Tab" && s.autocompleteSuggestion ≠ "" then
    handleAutocompleteInsert s s.autocompleteSuggestion
  else s

/-! ## The browser: textarea, timers and event dispatch -/

/-- The DOM setter `textarea.selectionStart = v` on a textarea holding `len` units:
the end is raised to `v` if it was smaller and both are clamped to the length. -/
def Textarea.setSelectionStart (ta : Textarea) (v len : Nat) : Textarea :=
  { ta with selectionStart := min v len, selectionEnd := min (max ta.selectionEnd v) len }

/-- The DOM setter `textarea.selectionEnd = v`: the end is clamped to the length and
the start is lowered to it if it was larger. -/
def Textarea.setSelectionEnd (ta : Textarea) (v len : Nat) : Textarea :=
  { ta with
    selectionStart := min (min ta.selectionStart len) (min v len)
    selectionEnd := min v len }

/-- The callback of lines 192-196; the textarea shows the committed `code`. -/
def placeCursor (s : AppState) (task : CursorTask) : AppState :=
  match s.textareaRef with
  | none => s
  | some textarea =>
    let t1 := textarea.setSelectionStart task.position s.code.length
    let t2 := t1.setSelectionEnd task.position s.code.length
    { s with textareaRef := some { t2 with focused := true } }

/-- Run the zero-delay cursor callbacks that are due at time `t`, oldest first. -/
def fireCursorTasks (s : AppState) (t : Nat) : AppState :=
  (s.cursorTasks.filter (fun task => decide (task.deadline ≤ t))).foldl placeCursor
    { s with cursorTasks := s.cursorTasks.filter (fun task => !decide (task.deadline ≤ t)) }

/-- Run the callback of lines 126-128 if its timer is due at time `t`. -/
def fireNetworkTimer (s : AppState) (t : Nat) : AppState :=
  match s.networkTimer with
  | none => s
  | some deadline =>
    if deadline ≤ t then { s with isNetworkUpdateRef := false, networkTimer := none } else s

/-- Run the debounced call (line 15) if its timer is due at time `t`. -/
def fireDebounce (s : AppState) (t : Nat) : AppState :=
  match s.timeoutRef with
  | none => s
  | some call =>
    if call.deadline ≤ t then
      fetchAutocomplete { s with timeoutRef := none } call.isConnected call.deadline
        call.currentCode call.cursorPosition
    else s

/-- Let the clock reach `t`, running every timer whose deadline has come. The three
kinds of callback write disjoint parts of the state, so their relative order does
not matter. -/
def advance (s : AppState) (t : Nat) : AppState :=
  let s1 := fireDebounce (fireNetworkTimer (fireCursorTasks s t) t) t
  { s1 with now := max s1.now t }

/-- Set the ready state of socket `k`. -/
def setReadyState (s : AppState) (k : Nat) (r : ReadyState) : AppState :=
  match s.sockets[k]? with
  | some socket => { s with sockets := s.sockets.set k { socket with readyState := r } }
  | none => s

/-- The user moves the caret or selects text in the textarea. -/
def setSelection (s : AppState) (selectionStart selectionEnd : Nat) : AppState :=
  match s.textareaRef with
  | some ta =>
    let ta1 := { ta with selectionStart := selectionStart, selectionEnd := selectionEnd }
    { s with textareaRef := some ta1 }
  | none => s

/-- What can happen to the component. -/
inductive Event
  | connect (id : String)
  | teardown
  | socketOpen (k : Nat)
  | socketMessage (k : Nat) (data : MessageData)
  | socketClose (k : Nat) (code : Nat)
  | socketError (k : Nat) (code : Nat)
  | change (value : String) (selectionStart : Nat)
  | select (selectionStart selectionEnd : Nat)
  | keyDown (key : String)
  | autocompleteReply (reply : Option String)
  deriving DecidableEq, Repr

/-- Deliver an event to the handler registered for it. A socket event reaches the
handlers of the socket it belongs to: `open` is delivered to a connecting socket,
which becomes open; a frame is delivered to an open socket; `close` is delivered to
a socket that is not yet closed, which becomes closed; a failed connection delivers
`error` and then `close`. The textarea is disabled unless `isConnected` (line 312),
so it raises `change` and `keydown` only then; typing leaves the caret, an empty
selection, at `selectionStart`. A `connect` that throws leaves the state it had
reached. -/
def dispatch (s : AppState) : Event → AppState
  | .connect id => (connectToRoom s id).state
  | .teardown => teardown s
  | .socketOpen k =>
    match s.sockets[k]? with
    | some socket =>
      if socket.readyState = .CONNECTING then onopen (setReadyState s k .OPEN) socket.id else s
    | none => s
  | .socketMessage k data =>
    match s.sockets[k]? with
    | some socket =>
      if socket.readyState = .OPEN then
        match onmessage s socket.id data with
        | .ok s' => s'
        | .error _ => s
      else s
    | none => s
  | .socketClose k code =>
    match s.sockets[k]? with
    | some socket =>
      if socket.readyState ≠ .CLOSED then onclose (setReadyState s k .CLOSED) k code else s
    | none => s
  | .socketError k code =>
    match s.sockets[k]? with
    | some socket =>
      if socket.readyState ≠ .CLOSED then
        onclose (onerror (setReadyState s k .CLOSED)) k code
      else s
    | none => s
  | .change value selectionStart =>
    if s.isConnected then
      handleCodeChange (setSelection s selectionStart selectionStart) value selectionStart
    else s
  | .select selectionStart selectionEnd => setSelection s selectionStart selectionEnd
  | .keyDown key => if s.isConnected then handleKeyDown s key else s
  | .autocompleteReply reply => fetchAutocompleteReply s reply

/-- One event at time `t`: the timers due by then run first, then the handler, then
React commits the render. -/
def step (s : AppState) (t : Nat) (e : Event) : AppState :=
  let s0 := advance s t
  commit s0 (dispatch s0 e)

/-- A run of timed events. -/
def run (s : AppState) (events : List (Nat × Event)) : AppState :=
  events.foldl (fun acc te => step acc te.1 te.2) s

/-- The sockets that are connecting or open. -/
def liveSockets (s : AppState) : List Nat :=
  (List.range s.sockets.length).filter fun k =>
    match s.sockets[k]? with
    | some socket => socket.readyState == .CONNECTING || socket.readyState == .OPEN
    | none => false

/-- Every frame sent so far, socket by socket. -/
def sentLog (s : AppState) : List (List OutboundMessage) :=
  s.sockets.map Socket.sent

/-- A timed local edit `(t, value, caret)` as an event. -/
def editEvent (edit : Nat × String × Nat) : Nat × Event :=
  (edit.1, Event.change edit.2.1 edit.2.2)

/-- The frame a local edit is expected to send. -/
def codeChange (edit : Nat × String × Nat) : OutboundMessage :=
  ⟨"code_change", edit.2.1⟩

/-- The text `suggestion` inserted into `text` at position `p`, in the words of the
specification of `acceptSuggestion`. -/
def insertAt (text : String) (p : Nat) (suggestion : String) : String :=
  ⟨text.data.take p ++ suggestion.data ++ text.data.drop p⟩

/-- A connected component: room `abc123` joined and its socket open, at time 1. -/
def connectedState : AppState :=
  step (step initialState 0 (.connect "abc123")) 1 (.socketOpen 0)

/-- Whether event `e`, arriving in state `s`, is a remote update whose payload is
the text the component already holds. -/
def repeatsText (s : AppState) : Event → Bool
  | .socketMessage _ (.typed type code) =>
    (type = "initial_state" || type = "code_update") && code = s.code
  | _ => false

/-- A run in which no remote update repeats the text held when it arrives. -/
def textChangingRun (s : AppState) : List (Nat × Event) → Bool
  | [] => true
  | te :: rest =>
    !repeatsText (advance s te.1) te.2 && textChangingRun (step s te.1 te.2) rest

/-- The time of the latest event of a run that changed `code`; `last` is that time
for the events before the run. -/
def lastCodeChange (s : AppState) (last : Nat) : List (Nat × Event) → Nat
  | [] => last
  | te :: rest =>
    lastCodeChange (step s te.1 te.2)
      (if (step s te.1 te.2).code ≠ (advance s te.1).code then (step s te.1 te.2).now else last)
      rest

/-! ## Close events (C1) -/

/-- C1: for every close event, on whatever socket and with whatever code, `onclose`
leaves `isConnected` and `connectingRef` false (connection state Disconnected), and
the status is chosen by the code: 1008 gives the "Room does not exist" status, 1000
gives "Disconnected successfully.", and every other code gives the error status
whose text holds the decimal form of that code. -/
theorem onclose_classifies (s : AppState) (socket code : Nat) :
    (onclose s socket code).isConnected = false ∧
    (onclose s socket code).connectingRef = false ∧
    connectionState (onclose s socket code) = .Disconnected ∧
    (code = 1008 → (onclose s socket code).message =
      "Connection closed: Room does not exist. Please check the Room ID.") ∧
    (code = 1000 → (onclose s socket code).message = "Disconnected successfully.") ∧
    (code ≠ 1008 → code ≠ 1000 → (onclose s socket code).message =
      "Connection closed with error. Code: " ++ toString code ++ ".") := by
  refine ⟨?_, ?_, ?_, ?_, ?_, ?_⟩
  · unfold onclose; dsimp only; split_ifs <;> rfl
  · unfold onclose; dsimp only; split_ifs <;> rfl
  · unfold connectionState onclose; dsimp only; split_ifs <;> simp_all
  · intro h; unfold onclose; dsimp only; split_ifs <;> rfl
  · intro h; unfold onclose; dsimp only; split_ifs <;> first | rfl | omega
  · intro h1 h2; unfold onclose; dsimp only; split_ifs <;> first | rfl | contradiction

/-- The abnormal close code 1006 on the first socket of a fresh component. -/
theorem onclose_classifies_witness :
    (onclose initialState 0 1006).message = "Connection closed with error. Code: 1006." :=
  (onclose_classifies initialState 0 1006).2.2.2.2.2 (by decide) (by decide)

/-! ## Remote updates and echo suppression (C2) -/

/-- The broadcast touches nothing but the sockets. -/
theorem broadcastChange_eq (s : AppState) (newCode : String) :
    broadcastChange s newCode = { s with sockets := (broadcastChange s newCode).sockets } := by
  rcases s with ⟨code, roomId, wsRef, connectingRef, isConnected, message, isLoading, sugg, ta,
    flag, sockets, nt, tr, ct, reqs, now⟩
  unfold broadcastChange
  cases wsRef with
  | none => rfl
  | some k =>
    dsimp only
    cases sockets[k]? with
    | none => rfl
    | some socket => dsimp only; split_ifs <;> rfl

/-- The sockets after a broadcast depend on the connection fields only. -/
theorem broadcastChange_sockets_congr (s u : AppState) (newCode : String)
    (h1 : u.wsRef = s.wsRef) (h2 : u.sockets = s.sockets) (h3 : u.isConnected = s.isConnected)
    (h4 : u.isNetworkUpdateRef = s.isNetworkUpdateRef) :
    (broadcastChange u newCode).sockets = (broadcastChange s newCode).sockets := by
  unfold broadcastChange
  rw [h1, h2, h3, h4]
  cases s.wsRef with
  | none => exact h2
  | some k =>
    dsimp only
    cases s.sockets[k]? with
    | none => exact h2
    | some socket => dsimp only; split_ifs <;> simp [h2]

/-- While the echo guard is set the broadcast sends nothing. -/
theorem broadcastChange_sockets_of_guard (s : AppState) (newCode : String)
    (h : s.isNetworkUpdateRef = true) : (broadcastChange s newCode).sockets = s.sockets := by
  unfold broadcastChange
  cases s.wsRef with
  | none => rfl
  | some k =>
    dsimp only
    cases s.sockets[k]? with
    | none => rfl
    | some socket => simp [h]

/-- With an open socket in `wsRef`, `isConnected` set and the echo guard clear, the
broadcast appends one `code_change` frame to that socket. -/
theorem broadcastChange_sockets_of_open (s : AppState) (newCode : String) (k : Nat)
    (socket : Socket) (h1 : s.wsRef = some k) (h2 : s.sockets[k]? = some socket)
    (h3 : socket.readyState = .OPEN) (h4 : s.isConnected = true)
    (h5 : s.isNetworkUpdateRef = false) :
    (broadcastChange s newCode).sockets =
      s.sockets.set k { socket with sent := socket.sent ++ [⟨"code_change", newCode⟩] } := by
  unfold broadcastChange send
  simp [h1, h2, h3, h4, h5]

/-- The debounce replaces the pending timer and touches nothing else. -/
theorem debouncedAutocomplete_eq (s : AppState) (currentCode : String) (cursorPosition : Nat) :
    debouncedAutocomplete s currentCode cursorPosition =
      { s with timeoutRef := some ⟨s.now + 600, currentCode, cursorPosition, s.isConnected⟩ } := by
  unfold debouncedAutocomplete
  dsimp only
  split_ifs <;> rfl

/-- A local edit, field by field. -/
theorem handleCodeChange_eq (s : AppState) (newCode : String) (caret : Nat) :
    handleCodeChange s newCode caret =
      { s with
        autocompleteSuggestion := ""
        code := newCode
        sockets := (broadcastChange s newCode).sockets
        timeoutRef := some ⟨s.now + 600, newCode, caret, s.isConnected⟩ } := by
  unfold handleCodeChange
  dsimp only
  rw [debouncedAutocomplete_eq, broadcastChange_eq]
  have h := broadcastChange_sockets_congr s
    { s with autocompleteSuggestion := "", code := newCode } newCode rfl rfl rfl rfl
  dsimp only at h ⊢
  rw [h]

/-- A local edit leaves the echo guard as it found it. -/
theorem handleCodeChange_isNetworkUpdateRef (s : AppState) (newCode : String) (caret : Nat) :
    (handleCodeChange s newCode caret).isNetworkUpdateRef = s.isNetworkUpdateRef := by
  rw [handleCodeChange_eq]

/-- While the echo guard is set, a local edit sends nothing on any socket. -/
theorem handleCodeChange_suppressed (s : AppState) (newCode : String) (caret : Nat)
    (h : s.isNetworkUpdateRef = true) :
    sentLog (handleCodeChange s newCode caret) = sentLog s := by
  unfold sentLog
  rw [handleCodeChange_eq]
  dsimp only
  rw [broadcastChange_sockets_of_guard s newCode h]

/-- C2: for a frame of type `code_update` or `initial_state` with payload `p`, the
message handler returns, `code` is `p` and the echo guard is set afterwards; and a
local edit made in any state whose echo guard is set sends nothing on any socket
and leaves the guard set. -/
theorem remote_update_applied_and_echo_suppressed (s : AppState) (id type p : String)
    (htype : type = "code_update" ∨ type = "initial_state") :
    (∃ s1, onmessage s id (.typed type p) = .ok s1 ∧ s1.code = p ∧
      s1.isNetworkUpdateRef = true) ∧
    ∀ (u : AppState) (newCode : String) (caret : Nat), u.isNetworkUpdateRef = true →
      sentLog (handleCodeChange u newCode caret) = sentLog u ∧
      (handleCodeChange u newCode caret).isNetworkUpdateRef = true := by
  constructor
  · rcases htype with h | h <;> subst h <;> exact ⟨_, rfl, rfl, rfl⟩
  · intro u newCode caret hu
    exact ⟨handleCodeChange_suppressed u newCode caret hu,
      (handleCodeChange_isNetworkUpdateRef u newCode caret).trans hu⟩

/-- The update `print(1)` reaches the connected component `connectedState`, and an
edit typed while the guard is set sends nothing. -/
theorem remote_update_applied_and_echo_suppressed_witness :
    (∃ s1, onmessage connectedState "abc123" (.typed "code_update" "print(1)") = .ok s1 ∧
      s1.code = "print(1)" ∧ s1.isNetworkUpdateRef = true) ∧
    sentLog (handleCodeChange
        (step connectedState 2 (.socketMessage 0 (.typed "code_update" "print(1)")))
        "print(1)x" 9) =
      sentLog (step connectedState 2 (.socketMessage 0 (.typed "code_update" "print(1)"))) :=
  ⟨(remote_update_applied_and_echo_suppressed connectedState "abc123" "code_update" "print(1)"
      (Or.inl rfl)).1,
    ((remote_update_applied_and_echo_suppressed connectedState "abc123" "code_update" "print(1)"
      (Or.inl rfl)).2
      (step connectedState 2 (.socketMessage 0 (.typed "code_update" "print(1)")))
      "print(1)x" 9 (by decide)).1⟩

/-! ## Timers: what the passage of time can change -/

/-- A cursor callback touches nothing but the textarea. -/
theorem placeCursor_eq (s : AppState) (task : CursorTask) :
    placeCursor s task = { s with textareaRef := (placeCursor s task).textareaRef } := by
  rcases s with ⟨code, roomId, wsRef, connectingRef, isConnected, message, isLoading, sugg, ta,
    flag, sockets, nt, tr, ct, reqs, now⟩
  unfold placeCursor
  cases ta <;> rfl

/-- A run of cursor callbacks touches nothing but the textarea. -/
theorem foldl_placeCursor_eq (tasks : List CursorTask) (s : AppState) :
    tasks.foldl placeCursor s =
      { s with textareaRef := (tasks.foldl placeCursor s).textareaRef } := by
  induction tasks generalizing s with
  | nil => rfl
  | cons task rest ih =>
    simp only [List.foldl_cons]
    rw [ih (placeCursor s task), placeCursor_eq s task]

/-- Firing the due cursor callbacks touches the textarea and the task list only. -/
theorem fireCursorTasks_eq (s : AppState) (t : Nat) :
    fireCursorTasks s t =
      { s with
        textareaRef := (fireCursorTasks s t).textareaRef
        cursorTasks := s.cursorTasks.filter (fun task => !decide (task.deadline ≤ t)) } := by
  unfold fireCursorTasks
  rw [foldl_placeCursor_eq]

/-- Firing the reset timer touches the echo guard and the timer only. -/
theorem fireNetworkTimer_eq (s : AppState) (t : Nat) :
    fireNetworkTimer s t =
      { s with
        isNetworkUpdateRef := (fireNetworkTimer s t).isNetworkUpdateRef
        networkTimer := (fireNetworkTimer s t).networkTimer } := by
  rcases s with ⟨code, roomId, wsRef, connectingRef, isConnected, message, isLoading, sugg, ta,
    flag, sockets, nt, tr, ct, reqs, now⟩
  unfold fireNetworkTimer
  cases nt with
  | none => rfl
  | some d => dsimp only; split_ifs <;> rfl

/-- Firing the debounced call touches the suggestion, the timer and the requests. -/
theorem fireDebounce_eq (s : AppState) (t : Nat) :
    fireDebounce s t =
      { s with
        autocompleteSuggestion := (fireDebounce s t).autocompleteSuggestion
        timeoutRef := (fireDebounce s t).timeoutRef
        requests := (fireDebounce s t).requests } := by
  rcases s with ⟨code, roomId, wsRef, connectingRef, isConnected, message, isLoading, sugg, ta,
    flag, sockets, nt, tr, ct, reqs, now⟩
  unfold fireDebounce fetchAutocomplete
  cases tr with
  | none => rfl
  | some call => dsimp only; split_ifs <;> rfl

/-- The reset timer reads the echo guard and the timer only. -/
theorem fireNetworkTimer_congr (s u : AppState) (t : Nat)
    (h1 : u.networkTimer = s.networkTimer) (h2 : u.isNetworkUpdateRef = s.isNetworkUpdateRef) :
    (fireNetworkTimer u t).isNetworkUpdateRef = (fireNetworkTimer s t).isNetworkUpdateRef ∧
    (fireNetworkTimer u t).networkTimer = (fireNetworkTimer s t).networkTimer := by
  unfold fireNetworkTimer
  rw [h1]
  cases s.networkTimer with
  | none => exact ⟨h2, h1⟩
  | some d => dsimp only; split_ifs <;> simp [h1, h2]

/-- The debounced call reads the suggestion, the timer and the requests only. -/
theorem fireDebounce_congr (s u : AppState) (t : Nat)
    (h1 : u.timeoutRef = s.timeoutRef) (h2 : u.autocompleteSuggestion = s.autocompleteSuggestion)
    (h3 : u.requests = s.requests) :
    (fireDebounce u t).autocompleteSuggestion = (fireDebounce s t).autocompleteSuggestion ∧
    (fireDebounce u t).timeoutRef = (fireDebounce s t).timeoutRef ∧
    (fireDebounce u t).requests = (fireDebounce s t).requests := by
  unfold fireDebounce fetchAutocomplete
  rw [h1]
  cases s.timeoutRef with
  | none => exact ⟨h2, h1, h3⟩
  | some call => dsimp only; split_ifs <;> simp [h1, h2, h3]

/-- The passage of time, field by field. -/
theorem advance_eq (s : AppState) (t : Nat) :
    advance s t =
      { s with
        textareaRef := (fireCursorTasks s t).textareaRef
        cursorTasks := s.cursorTasks.filter (fun task => !decide (task.deadline ≤ t))
        isNetworkUpdateRef := (fireNetworkTimer s t).isNetworkUpdateRef
        networkTimer := (fireNetworkTimer s t).networkTimer
        autocompleteSuggestion := (fireDebounce s t).autocompleteSuggestion
        timeoutRef := (fireDebounce s t).timeoutRef
        requests := (fireDebounce s t).requests
        now := max s.now t } := by
  have hc := fireCursorTasks_eq s t
  have hn := fireNetworkTimer_congr s (fireCursorTasks s t) t (by rw [hc]) (by rw [hc])
  have hn1 := fireNetworkTimer_eq (fireCursorTasks s t) t
  have hd := fireDebounce_congr s (fireNetworkTimer (fireCursorTasks s t) t) t
    (by rw [hn1, hc]) (by rw [hn1, hc]) (by rw [hn1, hc])
  have hd1 := fireDebounce_eq (fireNetworkTimer (fireCursorTasks s t) t) t
  unfold advance
  dsimp only
  rw [hd1, hd.1, hd.2.1, hd.2.2, hn1, hn.1, hn.2, hc]

/-! ## Local edits while connected (C3) -/

/-- Writing back the element already stored changes nothing. -/
theorem set_of_getElem? {α : Type} (l : List α) (k : Nat) (a : α) (h : l[k]? = some a) :
    l.set k a = l := by
  apply List.ext_getElem?
  intro n
  rw [List.getElem?_set]
  split_ifs with h1 h2
  · subst h1; exact h.symm
  · subst h1
    rcases List.getElem?_eq_some_iff.mp h with ⟨hlt, _⟩
    exact absurd hlt h2
  · rfl

/-- Moving the selection touches nothing but the textarea. -/
theorem setSelection_eq (s : AppState) (a b : Nat) :
    setSelection s a b = { s with textareaRef := (setSelection s a b).textareaRef } := by
  rcases s with ⟨code, roomId, wsRef, connectingRef, isConnected, message, isLoading, sugg, ta,
    flag, sockets, nt, tr, ct, reqs, now⟩
  unfold setSelection
  cases ta <;> rfl

/-- Committing a render touches nothing but the reset timer. -/
theorem commit_eq (prev s : AppState) :
    commit prev s = { s with networkTimer := (commit prev s).networkTimer } := by
  unfold commit networkFlagEffect
  split_ifs <;> rfl

/-- With the echo guard clear, the reset timer leaves it clear. -/
theorem fireNetworkTimer_of_clear (s : AppState) (t : Nat) (h : s.isNetworkUpdateRef = false) :
    (fireNetworkTimer s t).isNetworkUpdateRef = false := by
  unfold fireNetworkTimer
  cases s.networkTimer with
  | none => exact h
  | some d => dsimp only; split_ifs <;> simp [h]

/-- One timed local edit on a connected component with an open socket and a clear
echo guard: the text becomes the edit, one frame goes out, the rest stays. -/
theorem step_change_of_open (s : AppState) (t : Nat) (value : String) (caret k : Nat)
    (socket : Socket) (h1 : s.wsRef = some k) (h2 : s.sockets[k]? = some socket)
    (h3 : socket.readyState = .OPEN) (h4 : s.isConnected = true)
    (h5 : s.isNetworkUpdateRef = false) :
    (step s t (.change value caret)).code = value ∧
    (step s t (.change value caret)).wsRef = some k ∧
    (step s t (.change value caret)).isConnected = true ∧
    (step s t (.change value caret)).isNetworkUpdateRef = false ∧
    (step s t (.change value caret)).sockets =
      s.sockets.set k { socket with sent := socket.sent ++ [⟨"code_change", value⟩] } := by
  have ha : (advance s t).isConnected = true := by rw [advance_eq]; exact h4
  have hb : (setSelection (advance s t) caret caret).wsRef = some k := by
    rw [setSelection_eq, advance_eq]; exact h1
  have hc : (setSelection (advance s t) caret caret).sockets[k]? = some socket := by
    rw [setSelection_eq, advance_eq]; exact h2
  have hd : (setSelection (advance s t) caret caret).isConnected = true := by
    rw [setSelection_eq, advance_eq]; exact h4
  have he : (setSelection (advance s t) caret caret).isNetworkUpdateRef = false := by
    rw [setSelection_eq, advance_eq]; exact fireNetworkTimer_of_clear s t h5
  have hf : (setSelection (advance s t) caret caret).sockets = s.sockets := by
    rw [setSelection_eq, advance_eq]
  have hg := broadcastChange_sockets_of_open _ value k socket hb hc h3 hd he
  rw [hf] at hg
  have hstep : step s t (.change value caret) =
      commit (advance s t)
        (handleCodeChange (setSelection (advance s t) caret caret) value caret) := by
    unfold step
    simp only [dispatch, ha, if_true]
  rw [hstep, commit_eq, handleCodeChange_eq]
  exact ⟨rfl, hb, hd, he, hg⟩

/-- A run of timed local edits from such a state: the frames of the edits are
appended, in order, to the socket in `wsRef`, and the state stays connected. -/
theorem run_edits_of_open (edits : List (Nat × String × Nat)) (s : AppState) (k : Nat)
    (socket : Socket) (h1 : s.wsRef = some k) (h2 : s.sockets[k]? = some socket)
    (h3 : socket.readyState = .OPEN) (h4 : s.isConnected = true)
    (h5 : s.isNetworkUpdateRef = false) :
    (run s (edits.map editEvent)).sockets =
      s.sockets.set k { socket with sent := socket.sent ++ edits.map codeChange } ∧
    (∀ edit ∈ edits.getLast?, (run s (edits.map editEvent)).code = edit.2.1) := by
  induction edits generalizing s socket with
  | nil =>
    refine ⟨?_, by simp⟩
    simp only [run, List.map_nil, List.foldl_nil, List.append_nil]
    exact (set_of_getElem? s.sockets k socket h2).symm
  | cons edit rest ih =>
    obtain ⟨c1, c2, c3, c4, c5⟩ := step_change_of_open s edit.1 edit.2.1 edit.2.2 k socket
      h1 h2 h3 h4 h5
    have hk : k < s.sockets.length := by
      rcases List.getElem?_eq_some_iff.mp h2 with ⟨hlt, _⟩
      exact hlt
    have h2next : (step s edit.1 (.change edit.2.1 edit.2.2)).sockets[k]? =
        some { socket with sent := socket.sent ++ [⟨"code_change", edit.2.1⟩] } := by
      rw [c5]; simp [hk]
    have hrun : run s ((edit :: rest).map editEvent) =
        run (step s edit.1 (.change edit.2.1 edit.2.2)) (rest.map editEvent) := by
      simp [run, editEvent]
    obtain ⟨i1, i2⟩ := ih (step s edit.1 (.change edit.2.1 edit.2.2))
      { socket with sent := socket.sent ++ [⟨"code_change", edit.2.1⟩] } c2 h2next h3 c3 c4
    rw [hrun]
    constructor
    · rw [i1, c5]
      simp [codeChange, List.append_assoc]
    · intro last hlast
      cases rest with
      | nil =>
        simp only [List.getLast?_singleton, Option.mem_def, Option.some.injEq] at hlast
        subst hlast
        simpa [run] using c1
      | cons e2 r2 =>
        apply i2
        simpa [List.getLast?_cons_cons] using hlast

/-- C3: for every non-empty sequence of timed local edits made on a component whose
`wsRef` socket is open, with `isConnected` set and the echo guard clear, the text
ends as the text of the last edit, the socket has received exactly one
`code_change` frame per edit, in order, carrying that edit's text, no other socket
has changed, and the last frame sent on the socket carries the current text. -/
theorem local_edits_broadcast (s : AppState) (k : Nat) (socket : Socket)
    (edits : List (Nat × String × Nat)) (hne : edits ≠ [])
    (h1 : s.wsRef = some k) (h2 : s.sockets[k]? = some socket)
    (h3 : socket.readyState = .OPEN) (h4 : s.isConnected = true)
    (h5 : s.isNetworkUpdateRef = false) :
    (run s (edits.map editEvent)).sockets =
      s.sockets.set k { socket with sent := socket.sent ++ edits.map codeChange } ∧
    (∃ last, edits.getLast? = some last ∧ (run s (edits.map editEvent)).code = last.2.1) ∧
    ((run s (edits.map editEvent)).sockets[k]?).bind (fun x => x.sent.getLast?) =
      some ⟨"code_change", (run s (edits.map editEvent)).code⟩ := by
  obtain ⟨i1, i2⟩ := run_edits_of_open edits s k socket h1 h2 h3 h4 h5
  have hk : k < s.sockets.length := by
    rcases List.getElem?_eq_some_iff.mp h2 with ⟨hlt, _⟩
    exact hlt
  obtain ⟨last, hlast⟩ : ∃ last, edits.getLast? = some last := by
    cases hl : edits.getLast? with
    | none => exact absurd (List.getLast?_eq_none_iff.mp hl) hne
    | some last => exact ⟨last, rfl⟩
  have hcode := i2 last hlast
  refine ⟨i1, ⟨last, hlast, hcode⟩, ?_⟩
  rw [i1, hcode]
  simp [hk, List.getLast?_append, List.getLast?_map, hlast, codeChange]

/-- Two edits typed after `print(1)` on an open socket. -/
theorem local_edits_broadcast_witness :
    ((run (step (step initialState 0 (.connect "abc123")) 1 (.socketOpen 0))
        ([(20, "print(1)x", 9), (30, "print(1)xy", 10)].map editEvent)).sockets[0]?).bind
        (fun x => x.sent.getLast?) =
      some ⟨"code_change",
        (run (step (step initialState 0 (.connect "abc123")) 1 (.socketOpen 0))
          ([(20, "print(1)x", 9), (30, "print(1)xy", 10)].map editEvent)).code⟩ :=
  (local_edits_broadcast (step (step initialState 0 (.connect "abc123")) 1 (.socketOpen 0)) 0
    ⟨"ws://127.0.0.1:8000/ws/abc123", "abc123", .OPEN, []⟩
    [(20, "print(1)x", 9), (30, "print(1)xy", 10)] (by decide) (by decide) (by decide)
    (by decide) (by decide) (by decide)).2.2

/-! ## Duplicate connection attempts (C5) -/

/-- The address built at line 63 has a fragment exactly when the identifier holds
a `#`. -/
theorem url_fragment_iff (id : String) :
    '#' ∈ (WS_URL ++ "/" ++ id).data ↔ '#' ∈ id.data := by
  simp [WS_URL, String.data_append]

/-- C5, as amended: from a state without a channel, a first `connectToRoom` with a
room identifier that is not empty and holds no `#` returns normally, sets
`connectingRef` and constructs one socket; a second call made right after it, with
any identifier, returns normally with the state unchanged, so the two calls
together construct exactly one socket. -/
theorem connectToRoom_twice (s : AppState) (id1 id2 : String)
    (hnone : s.wsRef = none) (hid : id1 ≠ "") (hfrag : '#' ∉ id1.data) :
    (connectToRoom s id1).thrown = none ∧
    (connectToRoom s id1).state.connectingRef = true ∧
    (connectToRoom s id1).state.sockets.length = s.sockets.length + 1 ∧
    connectToRoom (connectToRoom s id1).state id2 = ⟨(connectToRoom s id1).state, none⟩ ∧
    (connectToRoom (connectToRoom s id1).state id2).state.sockets.length =
      s.sockets.length + 1 := by
  have hurl : '#' ∉ (WS_URL ++ "/" ++ id1).data := fun h => hfrag ((url_fragment_iff id1).mp h)
  have h1 : connectToRoom s id1 =
      ⟨{ s with
        message := "Connecting to room..."
        isLoading := true
        connectingRef := true
        sockets := s.sockets ++ [⟨WS_URL ++ "/" ++ id1, id1, .CONNECTING, []⟩]
        wsRef := some s.sockets.length }, none⟩ := by
    have hnew : newWebSocket (WS_URL ++ "/" ++ id1) id1 =
        .ok ⟨WS_URL ++ "/" ++ id1, id1, .CONNECTING, []⟩ := by
      unfold newWebSocket
      rw [if_neg hurl]
    unfold connectToRoom connectedOrConnecting
    simp [hid, hnone, hnew]
  have h2 : connectToRoom (connectToRoom s id1).state id2 =
      ⟨(connectToRoom s id1).state, none⟩ := by
    rw [h1]
    unfold connectToRoom connectedOrConnecting
    by_cases hid2 : id2 = ""
    · simp [hid2]
    · simp [hid2]
  refine ⟨?_, ?_, ?_, h2, ?_⟩
  · rw [h1]
  · rw [h1]
  · rw [h1]; simp
  · rw [h2, h1]; simp

/-- Two calls on a fresh component: the first returns normally, the second changes
nothing, one socket. -/
theorem connectToRoom_twice_witness :
    (connectToRoom initialState "abc123").thrown = none ∧
    connectToRoom (connectToRoom initialState "abc123").state "xyz789" =
      ⟨(connectToRoom initialState "abc123").state, none⟩ ∧
    (connectToRoom (connectToRoom initialState "abc123").state "xyz789").state.sockets.length =
      initialState.sockets.length + 1 :=
  ⟨(connectToRoom_twice initialState "abc123" "xyz789" rfl (by decide) (by decide)).1,
    (connectToRoom_twice initialState "abc123" "xyz789" rfl (by decide) (by decide)).2.2.2.1,
    (connectToRoom_twice initialState "abc123" "xyz789" rfl (by decide) (by decide)).2.2.2.2⟩

/-- C5, as stated, fails: on a fresh component the first call is made with `a#b`.
Lines 59-61 run, so `connectingRef` is set, then the constructor throws and no
socket is built and `wsRef` stays empty. The second call, made while `connectingRef`
is set, passes the test of line 54 and constructs a socket: it changes the state. -/
theorem second_connect_after_failed_constructor :
    (connectToRoom initialState "a#b").thrown = some .SyntaxError ∧
    (connectToRoom initialState "a#b").state.connectingRef = true ∧
    (connectToRoom initialState "a#b").state.wsRef = none ∧
    (connectToRoom initialState "a#b").state.sockets = [] ∧
    (connectToRoom (connectToRoom initialState "a#b").state "abc123").state ≠
      (connectToRoom initialState "a#b").state ∧
    (connectToRoom (connectToRoom initialState "a#b").state "abc123").state.sockets.length =
      1 := by
  decide

/-! ## Frames that do not decode (C9) -/

/-- C9: a frame that is not valid JSON, or parses to `null`, or has no string `type`,
or has a `type` other than `initial_state` and `code_update`, leaves the whole state
as it was: the handler returns normally with the state it was given, and so does
the delivery of the frame on any socket. -/
theorem onmessage_undecodable (s : AppState) (id : String) (k : Nat) (data : MessageData)
    (hdata : data = .unparsable ∨ data = .null ∨ data = .untyped ∨
      ∃ type code, data = .typed type code ∧ type ≠ "initial_state" ∧ type ≠ "code_update") :
    onmessage s id data = .ok s ∧ dispatch s (.socketMessage k data) = s := by
  have h : ∀ id, onmessage s id data = .ok s := by
    intro id
    rcases hdata with h | h | h | ⟨type, code, h, h1, h2⟩ <;> subst h
    · rfl
    · rfl
    · rfl
    · unfold onmessage onmessageTry; simp [h1, h2]
  refine ⟨h id, ?_⟩
  simp only [dispatch]
  split
  · split_ifs
    · rw [h]
    · rfl
  · rfl

/-- A frame that is not JSON arrives on the open socket of the connected component
`connectedState`. -/
theorem onmessage_undecodable_witness :
    (connectedState.sockets[0]?).map Socket.readyState = some .OPEN ∧
    onmessage connectedState "abc123" .unparsable = .ok connectedState ∧
    dispatch connectedState (.socketMessage 0 .unparsable) = connectedState :=
  ⟨by decide,
    (onmessage_undecodable connectedState "abc123" 0 .unparsable (Or.inl rfl)).1,
    (onmessage_undecodable connectedState "abc123" 0 .unparsable (Or.inl rfl)).2⟩

/-! ## Debounced suggestion requests (C7) -/

/-- A debounced call that is not yet due stays pending and issues nothing. -/
theorem fireDebounce_pending (s : AppState) (t : Nat) (call : DebouncedCall)
    (h : s.timeoutRef = some call) (hlt : t < call.deadline) :
    (fireDebounce s t).requests = s.requests ∧ (fireDebounce s t).timeoutRef = some call := by
  unfold fireDebounce
  rw [h]
  dsimp only
  rw [if_neg (by omega)]
  exact ⟨rfl, h⟩

/-- A due debounced call whose closure saw `isConnected` and whose text has at least
five units issues one request, stamped with its deadline. -/
theorem fireDebounce_due (s : AppState) (t : Nat) (call : DebouncedCall)
    (h : s.timeoutRef = some call) (hle : call.deadline ≤ t)
    (hc : call.isConnected = true) (hlen : 5 ≤ call.currentCode.length) :
    (fireDebounce s t).requests =
      s.requests ++ [⟨call.deadline, call.currentCode, call.cursorPosition, "python"⟩] := by
  unfold fireDebounce fetchAutocomplete
  rw [h]
  dsimp only
  rw [if_pos hle, if_neg (by simp [hc]; omega)]

/-- One timed local edit on a connected component: what it does to the debounce
timer, the requests and the clock. -/
theorem step_change_timer (s : AppState) (t : Nat) (value : String) (caret : Nat)
    (h : s.isConnected = true) :
    (step s t (.change value caret)).isConnected = true ∧
    (step s t (.change value caret)).now = max s.now t ∧
    (step s t (.change value caret)).timeoutRef =
      some ⟨max s.now t + 600, value, caret, true⟩ ∧
    (step s t (.change value caret)).requests = (fireDebounce s t).requests := by
  have ha : (advance s t).isConnected = true := by rw [advance_eq]; exact h
  have hb : (setSelection (advance s t) caret caret).isConnected = true := by
    rw [setSelection_eq]; exact ha
  have hc : (setSelection (advance s t) caret caret).now = max s.now t := by
    rw [setSelection_eq, advance_eq]
  have hd : (setSelection (advance s t) caret caret).requests = (fireDebounce s t).requests := by
    rw [setSelection_eq, advance_eq]
  have hstep : step s t (.change value caret) =
      commit (advance s t)
        (handleCodeChange (setSelection (advance s t) caret caret) value caret) := by
    unfold step
    simp only [dispatch, ha, if_true]
  rw [hstep, commit_eq, handleCodeChange_eq]
  dsimp only
  rw [hb, hc]
  exact ⟨rfl, rfl, rfl, hd⟩

/-- The requests after time has passed are those the debounce timer leaves. -/
theorem advance_requests (s : AppState) (t : Nat) :
    (advance s t).requests = (fireDebounce s t).requests := by
  rw [advance_eq]

/-- C7, as amended: three local edits on a connected component, the first at time
`t1`, each later one less than 600 time units after the one before, the third with
a text of at least five units. None of the three calls issues a request, none is
issued before time `t3 + 600`, and from that time on exactly one request has been
issued, at time `t3 + 600`, carrying the text and caret of the third call. -/
theorem debounce_coalesces (s : AppState) (v1 v2 v3 : String)
    (c1 c2 c3 t1 t2 t3 : Nat) (hconn : s.isConnected = true) (h01 : s.now ≤ t1)
    (h12 : t1 ≤ t2) (h12lt : t2 < t1 + 600) (h23 : t2 ≤ t3) (h23lt : t3 < t2 + 600)
    (hlen : 5 ≤ v3.length) :
    (step s t1 (.change v1 c1)).requests = (advance s t1).requests ∧
    (step (step s t1 (.change v1 c1)) t2 (.change v2 c2)).requests = (advance s t1).requests ∧
    (step (step (step s t1 (.change v1 c1)) t2 (.change v2 c2)) t3 (.change v3 c3)).requests =
      (advance s t1).requests ∧
    (∀ T, T < t3 + 600 →
      (advance (step (step (step s t1 (.change v1 c1)) t2 (.change v2 c2)) t3
        (.change v3 c3)) T).requests = (advance s t1).requests) ∧
    (∀ T, t3 + 600 ≤ T →
      (advance (step (step (step s t1 (.change v1 c1)) t2 (.change v2 c2)) t3
        (.change v3 c3)) T).requests =
        (advance s t1).requests ++ [⟨t3 + 600, v3, c3, "python"⟩]) := by
  obtain ⟨a1, a2, a3, a4⟩ := step_change_timer s t1 v1 c1 hconn
  obtain ⟨b1, b2, b3, b4⟩ := step_change_timer (step s t1 (.change v1 c1)) t2 v2 c2 a1
  obtain ⟨d1, d2, d3, d4⟩ :=
    step_change_timer (step (step s t1 (.change v1 c1)) t2 (.change v2 c2)) t3 v3 c3 b1
  have hn1 : max s.now t1 = t1 := by omega
  rw [hn1] at a2 a3
  have hn2 : max (step s t1 (.change v1 c1)).now t2 = t2 := by omega
  rw [hn2] at b2 b3
  have hn3 : max (step (step s t1 (.change v1 c1)) t2 (.change v2 c2)).now t3 = t3 := by
    omega
  rw [hn3] at d2 d3
  rw [← advance_requests] at a4
  have e2 := (fireDebounce_pending _ t2 _ a3 (by simpa using h12lt)).1
  have e3 := (fireDebounce_pending _ t3 _ b3 (by simpa using h23lt)).1
  have r1 : (step s t1 (.change v1 c1)).requests = (advance s t1).requests := a4
  have r2 : (step (step s t1 (.change v1 c1)) t2 (.change v2 c2)).requests =
      (advance s t1).requests := by rw [b4, e2, r1]
  have r3 : (step (step (step s t1 (.change v1 c1)) t2 (.change v2 c2)) t3
      (.change v3 c3)).requests = (advance s t1).requests := by rw [d4, e3, r2]
  refine ⟨r1, r2, r3, ?_, ?_⟩
  · intro T hT
    rw [advance_requests, (fireDebounce_pending _ T _ d3 (by simpa using hT)).1, r3]
  · intro T hT
    rw [advance_requests, fireDebounce_due _ T _ d3 (by simpa using hT) rfl hlen, r3]

/-- Three edits 100 time units apart on the connected component `connectedState`:
one request, 600 time units after the third. -/
theorem debounce_coalesces_witness :
    (advance (step (step (step connectedState 10 (.change "impor" 5)) 110
        (.change "import" 6)) 210 (.change "import " 7)) 810).requests =
      (advance connectedState 10).requests ++ [⟨210 + 600, "import ", 7, "python"⟩] :=
  (debounce_coalesces connectedState "impor" "import" "import " 5 6 7 10 110 210
    (by decide) (by decide) (by decide) (by decide) (by decide) (by decide)
    (by decide)).2.2.2.2 810 (by decide)

/-- C7, as stated, fails: three edits within 600 time units of each other on the
connected component, the third with the three-unit text `abc`, issue no request at
all, however long one waits. -/
theorem debounce_short_text_no_request :
    (advance (step (step (step connectedState 10 (.change "a" 1)) 110
        (.change "ab" 2)) 210 (.change "abc" 3)) 5000).requests = [] ∧
    connectedState.isConnected = true := by
  decide

/-! ## Accepting a suggestion (C8) -/

/-- For a position inside the text, the two `substring` calls of line 185 around
the suggestion build the text with the suggestion inserted at that position. -/
theorem substring_insert (text suggestion : String) (p : Nat) (hp : p ≤ text.length) :
    substring text 0 p ++ suggestion ++ substringFrom text p = insertAt text p suggestion := by
  apply String.ext
  unfold substringFrom substring insertAt
  have h1 : min p text.length = p := Nat.min_eq_left hp
  have h2 : min text.length text.length = text.length := Nat.min_self _
  have h3 : text.data.take text.length = text.data := List.take_of_length_le (le_refl _)
  simp only [String.data_append, h1, h2, Nat.zero_min, Nat.zero_max, Nat.max_eq_right hp,
    Nat.min_eq_left hp, List.drop_zero, h3, Nat.zero_le, Nat.max_eq_right, Nat.min_eq_left]

/-- The length of a text with a suggestion inserted. -/
theorem insertAt_length (text suggestion : String) (p : Nat) :
    (insertAt text p suggestion).length = text.length + suggestion.length := by
  unfold insertAt
  simp only [String.length_mk, List.length_append, List.length_take, List.length_drop]
  have : text.data.length = text.length := rfl
  have : suggestion.data.length = suggestion.length := rfl
  omega

/-- Accepting a suggestion, field by field. -/
theorem handleAutocompleteInsert_eq (s : AppState) (ta : Textarea) (suggestion : String)
    (hta : s.textareaRef = some ta) :
    handleAutocompleteInsert s suggestion =
      { s with
        code := substring s.code 0 ta.selectionStart ++ suggestion ++
          substringFrom s.code ta.selectionEnd
        sockets := (broadcastChange s (substring s.code 0 ta.selectionStart ++ suggestion ++
          substringFrom s.code ta.selectionEnd)).sockets
        autocompleteSuggestion := ""
        cursorTasks := s.cursorTasks ++
          [⟨s.now + 0, ta.selectionStart + suggestion.length⟩] } := by
  rcases s with ⟨code, roomId, wsRef, connectingRef, isConnected, message, isLoading, sugg, ta0,
    flag, sockets, nt, tr, ct, reqs, now⟩
  simp only at hta
  subst hta
  unfold handleAutocompleteInsert
  dsimp only
  rw [broadcastChange_eq]
  have h := broadcastChange_sockets_congr
    ⟨code, roomId, wsRef, connectingRef, isConnected, message, isLoading, sugg, some ta, flag,
      sockets, nt, tr, ct, reqs, now⟩
    ⟨substring code 0 ta.selectionStart ++ suggestion ++ substringFrom code ta.selectionEnd,
      roomId, wsRef, connectingRef, isConnected, message, isLoading, sugg, some ta, flag,
      sockets, nt, tr, ct, reqs, now⟩
    (substring code 0 ta.selectionStart ++ suggestion ++ substringFrom code ta.selectionEnd)
    rfl rfl rfl rfl
  dsimp only at h ⊢
  rw [h]

/-- A cursor callback on a mounted textarea leaves an empty selection at its
position, clamped to the length of the text, and gives the textarea focus. -/
theorem placeCursor_textareaRef (s : AppState) (task : CursorTask) (ta : Textarea)
    (h : s.textareaRef = some ta) :
    (placeCursor s task).textareaRef =
      some ⟨min task.position s.code.length, min task.position s.code.length, true⟩ := by
  unfold placeCursor Textarea.setSelectionEnd Textarea.setSelectionStart
  rw [h]
  simp

/-- Cursor callbacks keep a mounted textarea mounted. -/
theorem foldl_placeCursor_some (tasks : List CursorTask) (s : AppState) (ta : Textarea)
    (h : s.textareaRef = some ta) :
    ∃ ta1, (tasks.foldl placeCursor s).textareaRef = some ta1 := by
  induction tasks generalizing s ta with
  | nil => exact ⟨ta, h⟩
  | cons task rest ih =>
    simp only [List.foldl_cons]
    exact ih (placeCursor s task) _ (placeCursor_textareaRef s task ta h)

/-- When the newest cursor callback is due, the selection ends where it puts it. -/
theorem fireCursorTasks_last (s : AppState) (t : Nat) (old : List CursorTask)
    (task : CursorTask) (ta : Textarea) (h : s.textareaRef = some ta)
    (htasks : s.cursorTasks = old ++ [task]) (hdue : task.deadline ≤ t) :
    (fireCursorTasks s t).textareaRef =
      some ⟨min task.position s.code.length, min task.position s.code.length, true⟩ := by
  unfold fireCursorTasks
  generalize hw :
    ({ s with
        cursorTasks := s.cursorTasks.filter (fun task => !decide (task.deadline ≤ t)) } :
      AppState) = w
  have hwt : w.textareaRef = some ta := by rw [← hw]; exact h
  have hwc : w.code = s.code := by rw [← hw]
  have hf : [task].filter (fun task => decide (task.deadline ≤ t)) = [task] := by
    simp [hdue]
  rw [htasks, List.filter_append, List.foldl_append, hf]
  simp only [List.foldl_cons, List.foldl_nil]
  obtain ⟨ta1, h1⟩ := foldl_placeCursor_some
    (old.filter (fun task => decide (task.deadline ≤ t))) w ta hwt
  rw [placeCursor_textareaRef _ task ta1 h1, foldl_placeCursor_eq]
  dsimp only
  rw [hwc]

/-- C8, as amended: with a mounted textarea whose selection is empty at a position
`p` inside the text, `handleAutocompleteInsert` makes the text the old text with
the suggestion inserted at `p` and clears the pending suggestion; when `wsRef`
holds an open socket, `isConnected` is set and the echo guard is clear, it sends
one `code_change` frame carrying that text; and once its zero-delay timer has run
the selection is empty at `p` plus the length of the suggestion. -/
theorem accept_inserts_at_cursor (s : AppState) (ta : Textarea) (suggestion : String)
    (p : Nat) (hta : s.textareaRef = some ta) (hstart : ta.selectionStart = p)
    (hend : ta.selectionEnd = p) (hp : p ≤ s.code.length) :
    (handleAutocompleteInsert s suggestion).code = insertAt s.code p suggestion ∧
    (handleAutocompleteInsert s suggestion).autocompleteSuggestion = "" ∧
    (∀ (k : Nat) (socket : Socket), s.wsRef = some k → s.sockets[k]? = some socket →
      socket.readyState = .OPEN → s.isConnected = true → s.isNetworkUpdateRef = false →
      (handleAutocompleteInsert s suggestion).sockets =
        s.sockets.set k
          { socket with
            sent := socket.sent ++ [⟨"code_change", insertAt s.code p suggestion⟩] }) ∧
    (∀ T, s.now ≤ T →
      (advance (commit s (handleAutocompleteInsert s suggestion)) T).textareaRef =
        some ⟨p + suggestion.length, p + suggestion.length, true⟩) := by
  have hu := handleAutocompleteInsert_eq s ta suggestion hta
  rw [hstart, hend, substring_insert s.code suggestion p hp] at hu
  refine ⟨?_, ?_, ?_, ?_⟩
  · rw [hu]
  · rw [hu]
  · intro k socket h1 h2 h3 h4 h5
    rw [hu]
    exact broadcastChange_sockets_of_open s _ k socket h1 h2 h3 h4 h5
  · intro T hT
    rw [advance_eq, commit_eq]
    dsimp only
    have hc : ({ handleAutocompleteInsert s suggestion with
        networkTimer := (commit s (handleAutocompleteInsert s suggestion)).networkTimer }
        ).textareaRef = some ta := by rw [hu]; exact hta
    have hl : ({ handleAutocompleteInsert s suggestion with
        networkTimer := (commit s (handleAutocompleteInsert s suggestion)).networkTimer }
        ).cursorTasks = s.cursorTasks ++ [⟨s.now + 0, p + suggestion.length⟩] := by rw [hu]
    rw [fireCursorTasks_last _ T s.cursorTasks ⟨s.now + 0, p + suggestion.length⟩ ta hc hl
      (by simpa using hT)]
    have hlen : ({ handleAutocompleteInsert s suggestion with
        networkTimer := (commit s (handleAutocompleteInsert s suggestion)).networkTimer }
        ).code.length = s.code.length + suggestion.length := by
      rw [hu]; exact insertAt_length s.code suggestion p
    rw [hlen]
    have hm : min (p + suggestion.length) (s.code.length + suggestion.length) =
        p + suggestion.length := by omega
    simp only [hm]

/-- The suggestion `range(10)` accepted with the caret at position 9, the end of
`for i in `, on a connected component: the text becomes `for i in range(10)`, that
text is sent, and the caret ends at position 18. -/
theorem accept_inserts_at_cursor_witness :
    (handleAutocompleteInsert
      { connectedState with code := "for i in ", textareaRef := some ⟨9, 9, true⟩ }
      "range(10)").code = insertAt "for i in " 9 "range(10)" ∧
    insertAt "for i in " 9 "range(10)" = "for i in range(10)" ∧
    (handleAutocompleteInsert
      { connectedState with code := "for i in ", textareaRef := some ⟨9, 9, true⟩ }
      "range(10)").sockets =
      [⟨"ws://127.0.0.1:8000/ws/abc123", "abc123", .OPEN,
        [] ++ [⟨"code_change", insertAt "for i in " 9 "range(10)"⟩]⟩] ∧
    (advance (commit
        { connectedState with code := "for i in ", textareaRef := some ⟨9, 9, true⟩ }
        (handleAutocompleteInsert
          { connectedState with code := "for i in ", textareaRef := some ⟨9, 9, true⟩ }
          "range(10)")) 1).textareaRef =
      some ⟨9 + "range(10)".length, 9 + "range(10)".length, true⟩ :=
  ⟨(accept_inserts_at_cursor
      { connectedState with code := "for i in ", textareaRef := some ⟨9, 9, true⟩ }
      ⟨9, 9, true⟩ "range(10)" 9 rfl rfl rfl (by decide)).1,
    by decide,
    (accept_inserts_at_cursor
      { connectedState with code := "for i in ", textareaRef := some ⟨9, 9, true⟩ }
      ⟨9, 9, true⟩ "range(10)" 9 rfl rfl rfl (by decide)).2.2.1 0
      ⟨"ws://127.0.0.1:8000/ws/abc123", "abc123", .OPEN, []⟩
      (by decide) (by decide) (by decide) (by decide) (by decide),
    (accept_inserts_at_cursor
      { connectedState with code := "for i in ", textareaRef := some ⟨9, 9, true⟩ }
      ⟨9, 9, true⟩ "range(10)" 9 rfl rfl rfl (by decide)).2.2.2 1 (by decide)⟩

/-- C8, as stated, fails on its own example: the suggestion `range(10)` accepted
with the caret at position 5 of `for i in ` gives `for irange(10) in `, which is not
`for i in range(10)`. -/
theorem accept_at_position_five :
    (handleAutocompleteInsert
      { initialState with code := "for i in ", textareaRef := some ⟨5, 5, true⟩ }
      "range(10)").code = "for irange(10) in " ∧
    (handleAutocompleteInsert
      { initialState with code := "for i in ", textareaRef := some ⟨5, 5, true⟩ }
      "range(10)").code ≠ "for i in range(10)" := by
  decide

/-! ## The echo guard and its reset timer (C4) -/

/-- The message handler on a frame of type `initial_state` or `code_update`. -/
theorem onmessage_typed_update (s : AppState) (id type code : String)
    (h : (decide (type = "initial_state") || decide (type = "code_update")) = true) :
    onmessage s id (.typed type code) =
      .ok { s with
        isNetworkUpdateRef := true
        code := code
        message :=
          if type = "initial_state" then
            "Connected to Room ID: " ++ id ++ ". Initial code loaded from DB."
          else "Connected to Room ID: " ++ id ++ ". Live changes received." } := by
  unfold onmessage onmessageTry
  dsimp only
  rw [if_pos h]

/-- The message handler on a frame of any other type. -/
theorem onmessage_typed_other (s : AppState) (id type code : String)
    (h : ¬ (decide (type = "initial_state") || decide (type = "code_update")) = true) :
    onmessage s id (.typed type code) = .ok s := by
  unfold onmessage onmessageTry
  dsimp only
  rw [if_neg h]

/-- No handler touches the reset timer, and a handler that leaves the text as it
was sets the echo guard only for a remote update that repeats the text. -/
theorem dispatch_guard (s : AppState) (e : Event) :
    (dispatch s e).networkTimer = s.networkTimer ∧
    (repeatsText s e = false → (dispatch s e).code = s.code →
      (dispatch s e).isNetworkUpdateRef = s.isNetworkUpdateRef) := by
  cases e with
  | connect id =>
    simp only [dispatch, connectToRoom]
    split_ifs
    · exact ⟨rfl, fun _ _ => rfl⟩
    · exact ⟨rfl, fun _ _ => rfl⟩
    · split <;> exact ⟨rfl, fun _ _ => rfl⟩
  | teardown =>
    simp only [dispatch, teardown]
    split <;> exact ⟨rfl, fun _ _ => rfl⟩
  | socketOpen k =>
    simp only [dispatch, onopen, setReadyState]
    split
    · split_ifs <;> exact ⟨rfl, fun _ _ => rfl⟩
    · exact ⟨rfl, fun _ _ => rfl⟩
  | socketMessage k data =>
    simp only [dispatch]
    cases s.sockets[k]? with
    | none => exact ⟨rfl, fun _ _ => rfl⟩
    | some socket =>
      dsimp only
      split_ifs
      · cases data with
        | unparsable => exact ⟨rfl, fun _ _ => rfl⟩
        | null => exact ⟨rfl, fun _ _ => rfl⟩
        | untyped => exact ⟨rfl, fun _ _ => rfl⟩
        | typed type code =>
          by_cases h : (decide (type = "initial_state") || decide (type = "code_update")) = true
          · rw [onmessage_typed_update s socket.id type code h]
            refine ⟨rfl, ?_⟩
            intro h1 h2
            simp only [repeatsText, h, Bool.true_and, decide_eq_false_iff_not] at h1
            exact absurd h2 h1
          · rw [onmessage_typed_other s socket.id type code h]
            exact ⟨rfl, fun _ _ => rfl⟩
      · exact ⟨rfl, fun _ _ => rfl⟩
  | socketClose k code =>
    simp only [dispatch, onclose, setReadyState]
    split
    · split_ifs <;> exact ⟨rfl, fun _ _ => rfl⟩
    · exact ⟨rfl, fun _ _ => rfl⟩
  | socketError k code =>
    simp only [dispatch, onclose, onerror, setReadyState]
    split
    · split_ifs <;> exact ⟨rfl, fun _ _ => rfl⟩
    · exact ⟨rfl, fun _ _ => rfl⟩
  | change value caret =>
    simp only [dispatch]
    split_ifs
    · rw [handleCodeChange_eq, setSelection_eq]
      exact ⟨rfl, fun _ _ => rfl⟩
    · exact ⟨rfl, fun _ _ => rfl⟩
  | select a b =>
    simp only [dispatch]
    rw [setSelection_eq]
    exact ⟨rfl, fun _ _ => rfl⟩
  | keyDown key =>
    simp only [dispatch, handleKeyDown]
    split_ifs
    · cases hta : s.textareaRef with
      | none =>
        simp only [handleAutocompleteInsert, hta]
        exact ⟨trivial, fun _ _ => trivial⟩
      | some ta =>
        rw [handleAutocompleteInsert_eq s ta _ hta]
        exact ⟨rfl, fun _ _ => rfl⟩
    · exact ⟨rfl, fun _ _ => rfl⟩
    · exact ⟨rfl, fun _ _ => rfl⟩
  | autocompleteReply reply =>
    simp only [dispatch, fetchAutocompleteReply]
    cases reply <;> exact ⟨rfl, fun _ _ => rfl⟩

/-- The invariant behind the reset: while the echo guard is set, the reset timer
is pending and due 10 time units after the latest change of the text. -/
theorem step_guard_invariant (s : AppState) (last t : Nat) (e : Event)
    (hinv : s.isNetworkUpdateRef = true → s.networkTimer = some (last + 10))
    (hrep : repeatsText (advance s t) e = false) :
    (step s t e).isNetworkUpdateRef = true →
      (step s t e).networkTimer =
        some ((if (step s t e).code ≠ (advance s t).code then (step s t e).now else last) + 10) := by
  have hadv : (advance s t).isNetworkUpdateRef = true →
      (advance s t).networkTimer = some (last + 10) := by
    rw [advance_eq]
    dsimp only
    unfold fireNetworkTimer
    cases hnt : s.networkTimer with
    | none =>
      dsimp only
      intro h
      rw [hinv h] at hnt
      exact absurd hnt (by simp)
    | some d =>
      dsimp only
      split_ifs
      · intro h; exact absurd h (by simp)
      · intro h
        exact hinv h
  obtain ⟨hd1, hd2⟩ := dispatch_guard (advance s t) e
  unfold step
  dsimp only
  unfold commit networkFlagEffect
  by_cases hcode : (dispatch (advance s t) e).code = (advance s t).code
  · have hne : ¬ (dispatch (advance s t) e).code ≠ (advance s t).code := by simpa using hcode
    rw [if_neg hne, if_neg hne]
    intro h
    rw [hd1]
    rw [hd2 hrep hcode] at h
    exact hadv h
  · have hne : (dispatch (advance s t) e).code ≠ (advance s t).code := hcode
    rw [if_pos hne]
    dsimp only
    rw [if_pos hne]
    intro h
    rw [if_pos h]

/-- The invariant holds along every run in which no remote update repeats the text. -/
theorem run_guard_invariant (events : List (Nat × Event)) (s : AppState) (last : Nat)
    (hinv : s.isNetworkUpdateRef = true → s.networkTimer = some (last + 10))
    (hrun : textChangingRun s events = true) :
    (run s events).isNetworkUpdateRef = true →
      (run s events).networkTimer = some (lastCodeChange s last events + 10) := by
  induction events generalizing s last with
  | nil => exact hinv
  | cons te rest ih =>
    simp only [textChangingRun, Bool.and_eq_true, Bool.not_eq_true'] at hrun
    have hstep := step_guard_invariant s last te.1 te.2 hinv hrun.1
    have := ih (step s te.1 te.2) _ hstep hrun.2
    simpa [run, lastCodeChange] using this

/-- C4, as amended: along every run of events from the initial state in which no
remote update repeats the text the component holds when it arrives, the echo guard
is clear at every time more than 10 time units after the latest event that changed
the text (a remote update or a local edit). -/
theorem echo_guard_clear_after_last_change (events : List (Nat × Event)) (T : Nat)
    (hrun : textChangingRun initialState events = true)
    (hT : lastCodeChange initialState 0 events + 10 < T) :
    (advance (run initialState events) T).isNetworkUpdateRef = false := by
  have hinv := run_guard_invariant events initialState 0 (fun h => absurd h (by decide)) hrun
  rw [advance_eq]
  dsimp only
  cases hflag : (run initialState events).isNetworkUpdateRef with
  | false => exact fireNetworkTimer_of_clear _ T hflag
  | true =>
    unfold fireNetworkTimer
    rw [hinv hflag]
    dsimp only
    rw [if_pos (by omega)]

/-- A remote update at time 2 and a local edit at time 7: the guard is clear from
time 18 on. -/
theorem echo_guard_clear_after_last_change_witness :
    (advance (run initialState
      [(0, .connect "r"), (1, .socketOpen 0),
        (2, .socketMessage 0 (.typed "code_update" "a")), (7, .change "ab" 2)])
      18).isNetworkUpdateRef = false :=
  echo_guard_clear_after_last_change
    [(0, .connect "r"), (1, .socketOpen 0),
      (2, .socketMessage 0 (.typed "code_update" "a")), (7, .change "ab" 2)] 18
    (by decide) (by decide)

/-- C4, as stated, fails: a remote update arrives at time 2 and a local edit is made
at time 7, inside the window; the edit restarts the reset timer, and at time 13,
more than 10 time units after the remote update, the echo guard is still set. -/
theorem echo_guard_set_past_window :
    (advance (run initialState
      [(0, .connect "r"), (1, .socketOpen 0),
        (2, .socketMessage 0 (.typed "code_update" "a")), (7, .change "ab" 2)])
      13).isNetworkUpdateRef = true := by
  decide

/-- The slip beside it: an `initial_state` that repeats the (empty) text of a fresh
component arms no timer, the echo guard stays set however long one waits, and the
first local edit is not sent. -/
theorem echo_guard_dangling_on_repeated_text :
    (advance (run initialState
      [(0, .connect "r"), (1, .socketOpen 0),
        (2, .socketMessage 0 (.typed "initial_state" ""))]) 5000).isNetworkUpdateRef = true ∧
    sentLog (run initialState
      [(0, .connect "r"), (1, .socketOpen 0),
        (2, .socketMessage 0 (.typed "initial_state" "")), (5000, .change "x" 1)]) = [[]] := by
  decide

/-! ## Live sockets and superseded sockets (C6, C10) -/

/-- C6, evaluated on the double mount of `React.StrictMode` (`main.jsx`): the mount
effect connects to room `abc123` (socket 0), the simulated unmount runs `teardown`
(socket 0 starts closing, `wsRef` is emptied), the effect runs again and connects
once more (socket 1, connecting). The failed socket 0 then delivers `error` and
`close`, which clear `connectingRef`, and a further `connectToRoom` constructs
socket 2 while socket 1 is still connecting: two sockets are live. -/
theorem two_live_sockets_after_superseded_close :
    liveSockets (run initialState
      [(0, .connect "abc123"), (0, .teardown), (0, .connect "abc123"),
        (5, .socketError 0 1006), (9, .connect "xyz789")]) = [1, 2] := by
  decide

/-- C10, evaluated on the same double mount: socket 1 is the one in `wsRef`. When it
has opened, the `error` and `close` of the superseded socket 0 leave `isConnected`
false although socket 1 is open; when it is still connecting, they clear
`connectingRef`. -/
theorem superseded_close_marks_disconnected :
    (run initialState
      [(0, .connect "abc123"), (0, .teardown), (0, .connect "abc123"), (5, .socketOpen 1),
        (6, .socketError 0 1006)]).wsRef = some 1 ∧
    ((run initialState
      [(0, .connect "abc123"), (0, .teardown), (0, .connect "abc123"), (5, .socketOpen 1),
        (6, .socketError 0 1006)]).sockets[1]?).map Socket.readyState = some .OPEN ∧
    (run initialState
      [(0, .connect "abc123"), (0, .teardown), (0, .connect "abc123"), (5, .socketOpen 1),
        (6, .socketError 0 1006)]).isConnected = false ∧
    (run initialState
      [(0, .connect "abc123"), (0, .teardown), (0, .connect "abc123"),
        (5, .socketError 0 1006)]).wsRef = some 1 ∧
    ((run initialState
      [(0, .connect "abc123"), (0, .teardown), (0, .connect "abc123"),
        (5, .socketError 0 1006)]).sockets[1]?).map Socket.readyState = some .CONNECTING ∧
    (run initialState
      [(0, .connect "abc123"), (0, .teardown), (0, .connect "abc123"),
        (5, .socketError 0 1006)]).connectingRef = false := by
  decide

end CodeSync
